import Mathlib

/-!
Verification of the panaetov/dnd2 repository: a shallow embedding of its
frontend video-room orchestration (React component `VideoRoom`), its
signaling settings module, its backend CLI entrypoint and its SQL schema,
together with theorems settling the specification claims.
-/

set_option maxRecDepth 10000

namespace Dnd2

/-! ## Signaling settings (src/videoroom-react/src/settings.js)

The module computes a protocol-dependent value for `server` and then
unconditionally reassigns it to a fixed constant before exporting.  The
embedding mirrors the two sequential assignments. -/

/-- The first assignment to `server` in settings.js (lines 2-6): the
protocol-dependent, hostname-based selection. -/
def serverFirstAssignment (protocol hostname : String) : String :=
  if protocol = "http:" then
    "http://" ++ hostname ++ ":8088/janus"
  else
    "https://" ++ hostname ++ ":8089/janus"

/-- The exported `server` value (settings.js lines 2-8): the selection of
`serverFirstAssignment` is computed, then overwritten by the constant on
line 8 before the export on line 38. -/
def server (protocol hostname : String) : String :=
  let _initial := serverFirstAssignment protocol hostname
  "http://51.250.102.96:8088/janus"

/-! ## Backend CLI entrypoint (src/backend/entrypoints.sh)

The shell script dispatches on its first argument.  The embedding records,
for a given first argument, the lines echoed, the command the shell
`exec`s into (if any), and the explicit exit code (if any; absence means
the script falls off the end with status 0). -/

/-- The external command an entrypoint branch `exec`s into. -/
inductive ExecTarget where
  | bash
  | fastapiDev
  | paymentsChecker
  deriving DecidableEq, Repr

/-- Observable outcome of running the entrypoint script on one argument. -/
structure EntrypointOutcome where
  echoes : List String
  execTarget : Option ExecTarget
  exitCode : Option Nat
  deriving DecidableEq, Repr

/-- The `case "$1"` dispatch of entrypoints.sh (lines 3-28). -/
def entrypoint (arg : String) : EntrypointOutcome :=
  if arg = "help" then
    { echoes := ["Please use of next parameters to start: ",
                 "  > webserver: Start webserver",
                 "  > bash: Start bash shell"],
      execTarget := none, exitCode := none }
  else if arg = "bash" then
    { echoes := ["Starting bash ..."], execTarget := some .bash, exitCode := none }
  else if arg = "webserver" then
    { echoes := ["Starting webserver ..."], execTarget := some .fastapiDev,
      exitCode := none }
  else if arg = "payments_checker" then
    { echoes := ["Starting payments checker ..."],
      execTarget := some .paymentsChecker, exitCode := none }
  else
    { echoes := ["Unknown command '" ++ arg ++
                 "'. please use one of: [webserver, bash, help]"],
      execTarget := none, exitCode := some 1 }

/-- The four first arguments the entrypoint dispatches. -/
def dispatchedArgs : List String := ["webserver", "bash", "payments_checker", "help"]

/-! ## Relational schema (src/backend/migrations.sql)

One record per `CREATE TABLE` statement, transcribing column names and
types, and the `REFERENCES` clauses as foreign keys. -/

structure Column where
  cname : String
  ctype : String
  deriving DecidableEq, Repr

structure ForeignKey where
  fromCol : String
  toTable : String
  toCol : String
  deriving DecidableEq, Repr

structure Table where
  tname : String
  cols : List Column
  fks : List ForeignKey
  deriving DecidableEq, Repr

/-- `masters` (migrations.sql lines 1-7). -/
def mastersTable : Table :=
  { tname := "masters",
    cols := [⟨"id", "serial"⟩, ⟨"created_at", "TIMESTAMPTZ"⟩,
             ⟨"updated_at", "TIMESTAMPTZ"⟩, ⟨"external_id", "TEXT"⟩],
    fks := [] }

/-- `games` (migrations.sql lines 11-23). -/
def gamesTable : Table :=
  { tname := "games",
    cols := [⟨"id", "serial"⟩, ⟨"created_at", "TIMESTAMPTZ"⟩,
             ⟨"updated_at", "TIMESTAMPTZ"⟩, ⟨"name", "TEXT"⟩,
             ⟨"external_id", "TEXT"⟩, ⟨"room_id", "TEXT"⟩,
             ⟨"master_id", "integer"⟩, ⟨"master_join_link", "TEXT"⟩,
             ⟨"master_avatar_url", "TEXT"⟩],
    fks := [⟨"master_id", "masters", "id"⟩] }

/-- `characters` (migrations.sql lines 26-46). -/
def charactersTable : Table :=
  { tname := "characters",
    cols := [⟨"id", "serial"⟩, ⟨"created_at", "TIMESTAMPTZ"⟩,
             ⟨"updated_at", "TIMESTAMPTZ"⟩, ⟨"external_id", "TEXT"⟩,
             ⟨"name", "TEXT"⟩, ⟨"color", "TEXT"⟩, ⟨"game_id", "integer"⟩,
             ⟨"join_link", "TEXT"⟩, ⟨"avatar_url", "TEXT"⟩, ⟨"race", "TEXT"⟩,
             ⟨"x", "int"⟩, ⟨"y", "int"⟩, ⟨"map_id", "integer"⟩],
    fks := [⟨"game_id", "games", "id"⟩, ⟨"map_id", "maps", "id"⟩] }

/-- `audio_files` (migrations.sql lines 49-60). -/
def audioFilesTable : Table :=
  { tname := "audio_files",
    cols := [⟨"id", "serial"⟩, ⟨"created_at", "TIMESTAMPTZ"⟩,
             ⟨"updated_at", "TIMESTAMPTZ"⟩, ⟨"name", "TEXT"⟩,
             ⟨"external_id", "TEXT"⟩, ⟨"game_id", "int"⟩, ⟨"url", "TEXT"⟩,
             ⟨"duration_seconds", "int"⟩],
    fks := [⟨"game_id", "games", "id"⟩] }

/-- `video_files` (migrations.sql lines 63-74). -/
def videoFilesTable : Table :=
  { tname := "video_files",
    cols := [⟨"id", "serial"⟩, ⟨"created_at", "TIMESTAMPTZ"⟩,
             ⟨"updated_at", "TIMESTAMPTZ"⟩, ⟨"name", "TEXT"⟩,
             ⟨"external_id", "TEXT"⟩, ⟨"game_id", "int"⟩, ⟨"url", "TEXT"⟩,
             ⟨"duration_seconds", "int"⟩],
    fks := [⟨"game_id", "games", "id"⟩] }

/-- `maps` (migrations.sql lines 77-89). -/
def mapsTable : Table :=
  { tname := "maps",
    cols := [⟨"id", "serial"⟩, ⟨"created_at", "TIMESTAMPTZ"⟩,
             ⟨"updated_at", "TIMESTAMPTZ"⟩, ⟨"external_id", "TEXT"⟩,
             ⟨"game_id", "int"⟩, ⟨"url", "TEXT"⟩, ⟨"x_center", "integer"⟩,
             ⟨"y_center", "integer"⟩, ⟨"zoom", "float"⟩],
    fks := [⟨"game_id", "games", "id"⟩] }

/-- `items` (migrations.sql lines 92-107).  Note: the source declares
`map_id int NULL REFERENCES games(id)` — the reference target is
`games`, not `maps`. -/
def itemsTable : Table :=
  { tname := "items",
    cols := [⟨"id", "serial"⟩, ⟨"created_at", "TIMESTAMPTZ"⟩,
             ⟨"updated_at", "TIMESTAMPTZ"⟩, ⟨"external_id", "TEXT"⟩,
             ⟨"name", "TEXT"⟩, ⟨"game_id", "int"⟩, ⟨"map_id", "int"⟩,
             ⟨"x", "int"⟩, ⟨"y", "int"⟩, ⟨"icon_url", "TEXT"⟩],
    fks := [⟨"game_id", "games", "id"⟩, ⟨"map_id", "games", "id"⟩] }

/-- `fog_erace_points` (migrations.sql lines 110-119).  The source has no
`id` and no `updated_at` column, and its `map_id` is declared
`REFERENCES games(id)`. -/
def fogEracePointsTable : Table :=
  { tname := "fog_erace_points",
    cols := [⟨"created_at", "TIMESTAMPTZ"⟩, ⟨"map_id", "int"⟩,
             ⟨"x", "int"⟩, ⟨"y", "int"⟩, ⟨"radius", "int"⟩],
    fks := [⟨"map_id", "games", "id"⟩] }

/-- The full schema of migrations.sql, in source order. -/
def migrationsSchema : List Table :=
  [mastersTable, gamesTable, charactersTable, audioFilesTable,
   videoFilesTable, mapsTable, itemsTable, fogEracePointsTable]

/-- A table has a column of the given name. -/
def hasCol (t : Table) (n : String) : Bool :=
  t.cols.any (fun c => c.cname = n)

/-- The claim's per-table requirement: creation and update timestamp
columns, and at least one foreign key referencing a parent entity. -/
def claimC10TableOk (t : Table) : Bool :=
  hasCol t "created_at" && hasCol t "updated_at" && !t.fks.isEmpty

/-! ## Query-string parsing (VideoRoom component, lines 336-350 and 389-392)

`getQueryStringValue` builds the regex `[?&]name=([^&#]*)`, applies it to
`window.location.search`, and returns `""` on no match, otherwise the
captured group with `+` replaced by a space and then
`decodeURIComponent` applied.  The embedding scans the search string for
the leftmost occurrence of `?name=` or `&name=` and captures until `&` or
`#`.  The `[`/`]` escaping applied to `name` is the identity on the
alphanumeric/hyphen flag names used at every call site;
`decodeURIComponent` is modelled on single-byte percent escapes (the
values the flags compare against are plain ASCII). -/

/-- Value of a hexadecimal digit character. -/
def hexDigitVal (c : Char) : Option Nat :=
  if '0' ≤ c ∧ c ≤ '9' then some (c.toNat - '0'.toNat)
  else if 'a' ≤ c ∧ c ≤ 'f' then some (c.toNat - 'a'.toNat + 10)
  else if 'A' ≤ c ∧ c ≤ 'F' then some (c.toNat - 'A'.toNat + 10)
  else none

/-- decodeURIComponent on single-byte percent escapes; a `%` not followed
by two hex digits is kept literally. -/
def percentDecode : List Char → List Char
  | [] => []
  | '%' :: c1 :: c2 :: rest =>
    match hexDigitVal c1, hexDigitVal c2 with
    | some a, some b => Char.ofNat (16 * a + b) :: percentDecode rest
    | _, _ => '%' :: percentDecode (c1 :: c2 :: rest)
  | c :: rest => c :: percentDecode rest

/-- The `.replace(/\+/g, " ")` applied to the captured value. -/
def plusToSpace (cs : List Char) : List Char :=
  cs.map (fun c => if c = '+' then ' ' else c)

/-- True when `pat` occurs at the head of `cs`. -/
def matchesHere : List Char → List Char → Bool
  | [], _ => true
  | _ :: _, [] => false
  | p :: ps, c :: cs => p == c && matchesHere ps cs

/-- The `[^&#]*` capture: everything up to the next `&` or `#`. -/
def captureUntil (cs : List Char) : List Char :=
  cs.takeWhile (fun c => c != '&' && c != '#')

/-- Leftmost match of `[?&]pat` in the search string: `pat` stands for
`name=`; returns the captured value characters. -/
def findParam : List Char → List Char → Option (List Char)
  | [], _ => none
  | c :: rest, pat =>
    if (c == '?' || c == '&') && matchesHere pat rest then
      some (captureUntil (rest.drop pat.length))
    else
      findParam rest pat

/-- `getQueryStringValue` (lines 336-341): `""` when the regex does not
match, otherwise the decoded captured group. -/
def getQueryStringValue (search : String) (name : String) : String :=
  match findParam search.toList (name.toList ++ ['=']) with
  | none => ""
  | some captured => String.mk (percentDecode (plusToSpace captured))

/-- `doSimulcast` (line 344). -/
def doSimulcast (search : String) : Bool :=
  getQueryStringValue search "simulcast" == "yes" ||
  getQueryStringValue search "simulcast" == "true"

/-- `doSvc` (line 345): `getQueryStringValue("svc") || null`, the empty
string being falsy. -/
def doSvc (search : String) : Option String :=
  let v := getQueryStringValue search "svc"
  if v = "" then none else some v

/-- `acodec` (line 346). -/
def acodec (search : String) : Option String :=
  let v := getQueryStringValue search "acodec"
  if v = "" then none else some v

/-- `vcodec` (line 347). -/
def vcodec (search : String) : Option String :=
  let v := getQueryStringValue search "vcodec"
  if v = "" then none else some v

/-- `doDtx` (line 348). -/
def doDtx (search : String) : Bool :=
  getQueryStringValue search "dtx" == "yes" ||
  getQueryStringValue search "dtx" == "true"

/-- `subscriberMode` (line 349). -/
def subscriberMode (search : String) : Bool :=
  getQueryStringValue search "subscriber-mode" == "yes" ||
  getQueryStringValue search "subscriber-mode" == "true"

/-- `useMsid` (line 350). -/
def useMsid (search : String) : Bool :=
  getQueryStringValue search "msid" == "yes" ||
  getQueryStringValue search "msid" == "true"

/-- Accumulate decimal digits, as JS parseInt does on the leading digit
run. -/
def digitsToNat (cs : List Char) : Nat :=
  cs.foldl (fun a c => a * 10 + (c.toNat - '0'.toNat)) 0

/-- JS `parseInt` in base 10: skip leading whitespace, optional sign,
leading decimal digits; `none` models `NaN`. -/
def parseIntJS (s : String) : Option Int :=
  let cs := s.toList.dropWhile (fun c =>
    c == ' ' || c == '\t' || c == '\n' || c == '\r')
  match cs with
  | '-' :: rest =>
    let ds := rest.takeWhile Char.isDigit
    if ds.isEmpty then none else some (-(digitsToNat ds : Int))
  | '+' :: rest =>
    let ds := rest.takeWhile Char.isDigit
    if ds.isEmpty then none else some (digitsToNat ds : Int)
  | _ =>
    let ds := cs.takeWhile Char.isDigit
    if ds.isEmpty then none else some (digitsToNat ds : Int)

/-- `myroomRef.current` after the initialization effect (lines 389-392):
1234 unless a non-empty `room` parameter overrides it via `parseInt`
(`none` models `NaN` stored in the ref). -/
def myroom (search : String) : Option Int :=
  let roomParam := getQueryStringValue search "room"
  if roomParam ≠ "" then parseIntJS roomParam else some 1234

/-- All query-string-derived configuration consumed by the UI. -/
structure UiConfig where
  room : Option Int
  simulcast : Bool
  svc : Option String
  audioCodec : Option String
  videoCodec : Option String
  dtx : Bool
  subscriberOnly : Bool
  msid : Bool
  deriving DecidableEq, Repr

/-- The configuration the component derives from `window.location.search`. -/
def uiConfig (search : String) : UiConfig :=
  { room := myroom search,
    simulcast := doSimulcast search,
    svc := doSvc search,
    audioCodec := acodec search,
    videoCodec := vcodec search,
    dtx := doDtx search,
    subscriberOnly := subscriberMode search,
    msid := useMsid search }

/-- The query parameter names the component reads. -/
def consumedParams : List String :=
  ["room", "simulcast", "svc", "acodec", "vcodec", "dtx",
   "subscriber-mode", "msid"]

/-! ## safeAlert (VideoRoom component, lines 363-383)

The try block shows the message via `bootbox.alert` when
`window.bootbox` exists and `bootbox.alert` is a function, else via
`toastr.error` when that is a function, else via the built-in `alert`;
the catch block logs and falls back to the built-in `alert`.  The
callback, when given, is either passed to `bootbox.alert` or scheduled
with `setTimeout` (also from the catch block).  The environment records
library availability and whether each library call throws; the built-in
`alert` is modelled as total, as in the browser. -/

inductive AlertMethod where
  | bootbox
  | toastr
  | plain
  deriving DecidableEq, Repr

/-- A deferred action handed to safeAlert as its callback. -/
inductive PageAction where
  | reload
  deriving DecidableEq, Repr

structure AlertEnv where
  hasBootbox : Bool
  hasToastr : Bool
  bootboxThrows : Bool
  toastrThrows : Bool
  deriving DecidableEq, Repr

/-- What one safeAlert call did: the method the try block selected, the
display invocations that ran to completion (in order), and the callback
that was handed off. -/
structure AlertOutcome where
  attempted : AlertMethod
  displayed : List AlertMethod
  callbackDelivered : Option PageAction
  deriving DecidableEq, Repr

/-- The method the try block selects (lines 365, 371, 374). -/
def chosenMethod (env : AlertEnv) : AlertMethod :=
  if env.hasBootbox then AlertMethod.bootbox
  else if env.hasToastr then AlertMethod.toastr
  else AlertMethod.plain

/-- Whether the library call the try block selects throws. -/
def chosenThrows (env : AlertEnv) : Bool :=
  if env.hasBootbox then env.bootboxThrows
  else if env.hasToastr then env.toastrThrows
  else false

/-- safeAlert (lines 363-383). -/
def safeAlert (env : AlertEnv) (callback : Option PageAction) : AlertOutcome :=
  if env.hasBootbox then
    if env.bootboxThrows then
      { attempted := AlertMethod.bootbox, displayed := [AlertMethod.plain],
        callbackDelivered := callback }
    else
      { attempted := AlertMethod.bootbox, displayed := [AlertMethod.bootbox],
        callbackDelivered := callback }
  else if env.hasToastr then
    if env.toastrThrows then
      { attempted := AlertMethod.toastr, displayed := [AlertMethod.plain],
        callbackDelivered := callback }
    else
      { attempted := AlertMethod.toastr, displayed := [AlertMethod.toastr],
        callbackDelivered := callback }
  else
    { attempted := AlertMethod.plain, displayed := [AlertMethod.plain],
      callbackDelivered := callback }

/-- The `destroyed` branch of the publisher onmessage handler (lines
496-500): safeAlert on "The room has been destroyed" with a
`window.location.reload()` callback. -/
def onRoomDestroyedEvent (env : AlertEnv) : AlertOutcome :=
  safeAlert env (some PageAction.reload)

/-- The Janus session's `destroyed` callback (lines 638-640): an
immediate reload with no user-facing alert. -/
def onSessionDestroyed : List PageAction := [PageAction.reload]

/-! ## publishOwnFeed (VideoRoom component, lines 645-683)

The createOffer error callback retries without audio when audio capture
was requested, and otherwise reports the error through safeAlert.  The
oracle `offerError` gives, per attempt (keyed by its useAudio flag), the
error message of a failing createOffer, or `none` on success. -/

inductive PubEvent where
  | createOffer (useAudio : Bool)
  | configure (useAudio : Bool)
  | alert (msg : String)
  deriving DecidableEq, Repr

/-- The `useAudio = false` instance of publishOwnFeed (the body of the
recursive call on line 677): a createOffer attempt without audio, then
on success the `configure` request, on failure a single safeAlert
report. -/
def publishNoAudio (offerError : Bool → Option String) : List PubEvent :=
  PubEvent.createOffer false ::
    (match offerError false with
     | none => [PubEvent.configure false]
     | some e => [PubEvent.alert ("WebRTC error... " ++ e)])

/-- Trace of publishOwnFeed (lines 645-683): a createOffer attempt, then
on success the `configure` request, on failure either the no-audio retry
(when audio was used) or a single safeAlert report.  The source's
self-call `publishOwnFeed(false)` recurses at most once, so it is
unfolded into `publishNoAudio`. -/
def publishOwnFeed (offerError : Bool → Option String) : Bool → List PubEvent
  | true =>
    PubEvent.createOffer true ::
      (match offerError true with
       | none => [PubEvent.configure true]
       | some _ => publishNoAudio offerError)
  | false => publishNoAudio offerError

def isCreateOffer : PubEvent → Bool
  | PubEvent.createOffer _ => true
  | _ => false

def isAlertEvent : PubEvent → Bool
  | PubEvent.alert _ => true
  | _ => false

/-- Retries in a trace: createOffer attempts beyond the first. -/
def retryCount (tr : List PubEvent) : Nat :=
  tr.countP isCreateOffer - 1

/-! ## handleRegister (VideoRoom component, lines 686-706) -/

/-- escapeXmlTags (lines 353-360): every `<` becomes `&lt` and every `>`
becomes `&gt` (sic, no trailing semicolons in the source); a falsy value
(the empty string) is returned unchanged. -/
def escapeXmlTags (value : String) : String :=
  if value = "" then value
  else (value.replace "<" "&lt").replace ">" "&gt"

/-- The character class `[a-zA-Z0-9]` of the regex on line 691. -/
def isAsciiAlphanum (c : Char) : Bool :=
  decide (('a' ≤ c ∧ c ≤ 'z') ∨ ('A' ≤ c ∧ c ≤ 'Z') ∨ ('0' ≤ c ∧ c ≤ '9'))

/-- The join request handleRegister sends (lines 697-702); `room` is the
current myroomRef value. -/
structure JoinRequest where
  room : Option Int
  ptype : String
  display : String
  deriving DecidableEq, Repr

/-- Observable outcome of handleRegister: the toastr warning (if any),
the join request sent to the plugin handle (if any), and the values of
the username field and of myUsername afterwards. -/
structure RegisterOutcome where
  warning : Option String
  sentJoin : Option JoinRequest
  usernameAfter : String
  myUsernameAfter : Option String
  deriving DecidableEq, Repr

/-- handleRegister (lines 686-706): an empty username only warns; a
username with a character outside `[a-zA-Z0-9]` warns and resets the
field; otherwise myUsername is set to the escaped username and the join
request is sent with the raw username as display. -/
def handleRegister (room : Option Int) (username : String) : RegisterOutcome :=
  if username = "" then
    { warning := some "Insert your display name (e.g., pippo)",
      sentJoin := none, usernameAfter := username, myUsernameAfter := none }
  else if username.toList.any (fun c => !(isAsciiAlphanum c)) then
    { warning := some "Input is not alphanumeric",
      sentJoin := none, usernameAfter := "", myUsernameAfter := none }
  else
    { warning := none,
      sentJoin := some { room := room, ptype := "publisher", display := username },
      usernameAfter := username,
      myUsernameAfter := some (escapeXmlTags username) }

/-! ## The publisher `joined` event handler (VideoRoom, lines 462-495) -/

structure PublisherEntry where
  pid : Nat
  dummy : Bool
  display : String
  deriving DecidableEq, Repr

structure JoinedMsg where
  mid : Nat
  privateId : Nat
  room : Nat
  publishers : Option (List PublisherEntry)
  deriving DecidableEq, Repr

/-- The view-state flags and identity the joined handler touches. -/
structure UiState where
  joined : Bool
  showJoinForm : Bool
  showVideos : Bool
  myId : Option Nat
  myPvtId : Option Nat
  deriving DecidableEq, Repr

inductive JoinEffect where
  | publishOwnFeedCall (useAudio : Bool)
  | newRemoteFeedCall (id : Nat) (display : String)
  deriving DecidableEq, Repr

/-- The `joined` branch (lines 462-495): record id and private id, set
`joined`; when subscriber-mode is on, hide the join form and show the
video grid, otherwise call `publishOwnFeed(true)`; then attach a new
remote feed for every non-dummy publisher in the message. -/
def onJoined (subscriberModeFlag : Bool) (s : UiState) (m : JoinedMsg) :
    UiState × List JoinEffect :=
  let s1 := { s with myId := some m.mid, myPvtId := some m.privateId,
                     joined := true }
  let stepped :=
    if subscriberModeFlag then
      ({ s1 with showJoinForm := false, showVideos := true },
       ([] : List JoinEffect))
    else
      (s1, [JoinEffect.publishOwnFeedCall true])
  (stepped.1,
   stepped.2 ++
     (match m.publishers with
      | none => []
      | some list =>
        (list.filter (fun p => !p.dummy)).map
          (fun p => JoinEffect.newRemoteFeedCall p.pid p.display)))

/-! ## The feeds array (VideoRoom, lines 321, 782-797, 798-826, 856-899,
917-928)

The state is initialized to six `null` slots; the subscriber `attached`
branch stores a new remote feed in the first free slot among indices
1..5 (the source loop `for (let i = 1; i < 6; i++)` is unrolled at its
constant bounds); `removeRemoteFeed` nulls the first slot in 1..5 whose
feed carries the given rfid; the simulcast/SVC and remote-track handlers
rewrite an occupied slot in place, guarded by `if (newFeeds[index])`.
All updates copy the array and assign single indices. -/

structure RemoteFeed where
  rfid : Nat
  rfindex : Option Nat
  remoteVideos : Nat
  simulcastStarted : Bool
  svcStarted : Bool
  deriving DecidableEq, Repr

abbrev Feeds := List (Option RemoteFeed)

/-- `useState([null, null, null, null, null, null])` (line 321). -/
def initialFeeds : Feeds := [none, none, none, none, none, none]

/-- `!newFeeds[i]`: the slot is null (or, out of range, undefined). -/
def slotFree (fs : Feeds) (i : Nat) : Bool :=
  match fs.getD i none with
  | none => true
  | some _ => false

/-- The first free slot among indices 1..5 (lines 785-792). -/
def firstFreeSlot (fs : Feeds) : Option Nat :=
  if slotFree fs 1 then some 1
  else if slotFree fs 2 then some 2
  else if slotFree fs 3 then some 3
  else if slotFree fs 4 then some 4
  else if slotFree fs 5 then some 5
  else none

/-- The `attached` branch (lines 782-797): the new feed's rfindex is set
to the first free index in 1..5 and the feed is stored there; with no
free slot the array is unchanged and the feed is dropped.  Returns the
updated array and the assigned index. -/
def attachFeed (fs : Feeds) (f : RemoteFeed) : Feeds × Option Nat :=
  match firstFreeSlot fs with
  | some i => (fs.set i (some { f with rfindex := some i }), some i)
  | none => (fs, none)

/-- `newFeeds[i] && newFeeds[i].rfid === id` (line 921). -/
def slotHasId (fs : Feeds) (i : Nat) (id : Nat) : Bool :=
  match fs.getD i none with
  | some f => f.rfid == id
  | none => false

/-- removeRemoteFeed (lines 917-928), its loop unrolled at the constant
bounds: null the first slot in 1..5 holding the given rfid. -/
def removeRemoteFeed (fs : Feeds) (id : Nat) : Feeds :=
  if slotHasId fs 1 id then fs.set 1 none
  else if slotHasId fs 2 id then fs.set 2 none
  else if slotHasId fs 3 id then fs.set 3 none
  else if slotHasId fs 4 id then fs.set 4 none
  else if slotHasId fs 5 id then fs.set 5 none
  else fs

/-- The guarded in-place slot updates of the simulcast/SVC and
remote-track handlers (lines 804-810, 818-824, 869-876, 891-898):
rewrite slot `idx` when occupied; `idx = none` models a feed whose
rfindex was never assigned (indexing by null reads nothing). -/
def updateFeedAt (fs : Feeds) (idx : Option Nat)
    (g : RemoteFeed → RemoteFeed) : Feeds :=
  match idx with
  | none => fs
  | some i =>
    match fs.getD i none with
    | some f => fs.set i (some (g f))
    | none => fs

/-- The operations the component performs on the feeds array. -/
inductive FeedsOp where
  | attach (f : RemoteFeed)
  | remove (id : Nat)
  | update (idx : Option Nat) (g : RemoteFeed → RemoteFeed)

def applyOp (fs : Feeds) : FeedsOp → Feeds
  | FeedsOp.attach f => (attachFeed fs f).1
  | FeedsOp.remove id => removeRemoteFeed fs id
  | FeedsOp.update idx g => updateFeedAt fs idx g

/-- The feeds array after a sequence of operations from the initial
state. -/
def runOps (ops : List FeedsOp) : Feeds :=
  ops.foldl applyOp initialFeeds

/-- Number of remote feeds stored. -/
def countFeeds (fs : Feeds) : Nat :=
  fs.countP (fun s => s.isSome)

/-- The C8 invariant: six slots, slot 0 never holds a remote feed. -/
def FeedsInv (fs : Feeds) : Prop :=
  fs.length = 6 ∧ fs.getD 0 none = none

end Dnd2

namespace Dnd2

/-! ## Theorems for claims C2, C3, C10 -/

/-- C2: the exported signaling server URL equals the constant
`http://51.250.102.96:8088/janus` for every value of
`window.location.protocol` and `window.location.hostname`; in particular
two runs under different locations yield the same server value. -/
theorem c2_server_constant :
    ∀ p h : String, server p h = "http://51.250.102.96:8088/janus" ∧
      ∀ p₂ h₂ : String, server p h = server p₂ h₂ := by
  intro p h
  constructor
  · rfl
  · intro p₂ h₂
    rfl

/-- C3: the entrypoint dispatches exactly `webserver` (the external web
framework dev server), `bash`, `payments_checker` and `help`; every other
first argument produces a usage message and exit code 1 (non-zero),
execing into nothing. -/
theorem c3_entrypoint_dispatch :
    (entrypoint "webserver").execTarget = some ExecTarget.fastapiDev ∧
    (entrypoint "bash").execTarget = some ExecTarget.bash ∧
    (entrypoint "payments_checker").execTarget = some ExecTarget.paymentsChecker ∧
    (entrypoint "help").execTarget = none ∧ (entrypoint "help").exitCode = none ∧
    ∀ arg : String, arg ∉ dispatchedArgs →
      (entrypoint arg).exitCode = some 1 ∧
      (entrypoint arg).execTarget = none ∧
      (entrypoint arg).echoes =
        ["Unknown command '" ++ arg ++ "'. please use one of: [webserver, bash, help]"] := by
  refine ⟨rfl, rfl, rfl, rfl, rfl, ?_⟩
  intro arg hmem
  simp only [dispatchedArgs, List.mem_cons, List.not_mem_nil, or_false] at hmem
  push_neg at hmem
  obtain ⟨h1, h2, h3, h4⟩ := hmem
  simp [entrypoint, h1, h2, h3, h4]

/-- Witness for C3 at the concrete unknown argument `"foo"`. -/
theorem c3_entrypoint_dispatch_witness :
    (entrypoint "foo").exitCode = some 1 ∧
    (entrypoint "foo").execTarget = none ∧
    (entrypoint "foo").echoes =
      ["Unknown command 'foo'. please use one of: [webserver, bash, help]"] :=
  c3_entrypoint_dispatch.2.2.2.2.2 "foo" (by decide)

/-- C10 counterexample: the claim requires every table to carry both
timestamp columns and a foreign key to its parent, but `fog_erace_points`
has no `updated_at` column and `masters` has no foreign key at all, so
the schema does not satisfy the claim as stated. -/
theorem c10_counterexample :
    fogEracePointsTable ∈ migrationsSchema ∧
    hasCol fogEracePointsTable "updated_at" = false ∧
    mastersTable ∈ migrationsSchema ∧ mastersTable.fks = [] ∧
    ¬ (∀ t ∈ migrationsSchema, claimC10TableOk t = true) := by
  refine ⟨by decide, by decide, by decide, by decide, ?_⟩
  intro h
  have := h fogEracePointsTable (by decide)
  simp [claimC10TableOk, hasCol, fogEracePointsTable] at this

/-- C4: each boolean flag (`simulcast`, `dtx`, `subscriber-mode`, `msid`)
is enabled iff its query value is exactly `"yes"` or `"true"`; a
parameter the search string does not contain yields the empty string, so
`svc`, `acodec` and `vcodec` default to `none` and the room defaults to
1234; and the derived configuration depends on exactly the eight consumed
parameters: two search strings agreeing on them yield the same
configuration. -/
theorem c4_query_flags (s : String) :
    (doSimulcast s = true ↔
      (getQueryStringValue s "simulcast" = "yes" ∨
       getQueryStringValue s "simulcast" = "true")) ∧
    (doDtx s = true ↔
      (getQueryStringValue s "dtx" = "yes" ∨
       getQueryStringValue s "dtx" = "true")) ∧
    (subscriberMode s = true ↔
      (getQueryStringValue s "subscriber-mode" = "yes" ∨
       getQueryStringValue s "subscriber-mode" = "true")) ∧
    (useMsid s = true ↔
      (getQueryStringValue s "msid" = "yes" ∨
       getQueryStringValue s "msid" = "true")) ∧
    (∀ name : String, findParam s.toList (name.toList ++ ['=']) = none →
      getQueryStringValue s name = "") ∧
    (getQueryStringValue s "svc" = "" → doSvc s = none) ∧
    (getQueryStringValue s "acodec" = "" → acodec s = none) ∧
    (getQueryStringValue s "vcodec" = "" → vcodec s = none) ∧
    (getQueryStringValue s "room" = "" → myroom s = some 1234) ∧
    (∀ s' : String,
      (∀ n ∈ consumedParams, getQueryStringValue s n = getQueryStringValue s' n) →
      uiConfig s = uiConfig s') := by
  refine ⟨?_, ?_, ?_, ?_, ?_, ?_, ?_, ?_, ?_, ?_⟩
  · simp [doSimulcast]
  · simp [doDtx]
  · simp [subscriberMode]
  · simp [useMsid]
  · intro name h
    have h' : findParam s.data (name.data ++ ['=']) = none := h
    simp [getQueryStringValue, h']
  · intro h
    simp [doSvc, h]
  · intro h
    simp [acodec, h]
  · intro h
    simp [vcodec, h]
  · intro h
    simp [myroom, h]
  · intro s' hag
    have hroom := hag "room" (by simp [consumedParams])
    have hsimul := hag "simulcast" (by simp [consumedParams])
    have hsvc := hag "svc" (by simp [consumedParams])
    have hacodec := hag "acodec" (by simp [consumedParams])
    have hvcodec := hag "vcodec" (by simp [consumedParams])
    have hdtx := hag "dtx" (by simp [consumedParams])
    have hsub := hag "subscriber-mode" (by simp [consumedParams])
    have hmsid := hag "msid" (by simp [consumedParams])
    simp [uiConfig, myroom, doSimulcast, doSvc, acodec, vcodec, doDtx,
      subscriberMode, useMsid, hroom, hsimul, hsvc, hacodec, hvcodec,
      hdtx, hsub, hmsid]

/-- Witness for C4 at concrete search strings: the empty search has no
parameters, so the codec and SVC settings are `none` and the room is
1234; two searches with only irrelevant parameters give equal
configurations; a boolean flag is on for the value `yes`. -/
theorem c4_query_flags_witness :
    doSvc "" = none ∧ myroom "" = some 1234 ∧
    getQueryStringValue "" "svc" = "" ∧
    uiConfig "?a=1" = uiConfig "?b=2" ∧
    doSimulcast "?simulcast=yes" = true :=
  ⟨(c4_query_flags "").2.2.2.2.2.1 (by decide),
   (c4_query_flags "").2.2.2.2.2.2.2.2.1 (by decide),
   (c4_query_flags "").2.2.2.2.1 "svc" (by decide),
   (c4_query_flags "?a=1").2.2.2.2.2.2.2.2.2 "?b=2" (by decide),
   ((c4_query_flags "?simulcast=yes").1).mpr (Or.inl (by decide))⟩

/-- C10 amended: the schema consists of exactly the eight tables
`masters`, `games`, `characters`, `audio_files`, `video_files`, `maps`,
`items` and `fog_erace_points`; every table has a `created_at` timestamp
column; every table except `fog_erace_points` also has `updated_at`;
every table except the root table `masters` has at least one foreign key
(`games` references `masters`; `characters` references `games` and
`maps`; `audio_files`, `video_files`, `maps` and `items` reference
`games`; the `map_id` columns of `items` and `fog_erace_points` are
declared to reference `games(id)` rather than `maps(id)`). -/
theorem c10_schema_amended :
    migrationsSchema.map Table.tname =
      ["masters", "games", "characters", "audio_files", "video_files",
       "maps", "items", "fog_erace_points"] ∧
    (migrationsSchema.all fun t => hasCol t "created_at") = true ∧
    (migrationsSchema.all fun t =>
      t.tname == "fog_erace_points" || hasCol t "updated_at") = true ∧
    (migrationsSchema.all fun t =>
      t.tname == "masters" || !t.fks.isEmpty) = true ∧
    gamesTable.fks = [⟨"master_id", "masters", "id"⟩] ∧
    charactersTable.fks = [⟨"game_id", "games", "id"⟩, ⟨"map_id", "maps", "id"⟩] ∧
    audioFilesTable.fks = [⟨"game_id", "games", "id"⟩] ∧
    videoFilesTable.fks = [⟨"game_id", "games", "id"⟩] ∧
    mapsTable.fks = [⟨"game_id", "games", "id"⟩] ∧
    itemsTable.fks = [⟨"game_id", "games", "id"⟩, ⟨"map_id", "games", "id"⟩] ∧
    fogEracePointsTable.fks = [⟨"map_id", "games", "id"⟩] := by
  refine ⟨rfl, by decide, by decide, by decide, rfl, rfl, rfl, rfl, rfl, rfl, rfl⟩

/-- C5 counterexample: when createOffer fails for the audio+video
publish attempt, the error callback retries the publish without audio
instead of reporting, so with both attempts failing the trace holds two
createOffer attempts (one retry) and the first error is never reported
on its own. -/
theorem c5_counterexample :
    publishOwnFeed (fun _ => some "Device error") true =
      [PubEvent.createOffer true, PubEvent.createOffer false,
       PubEvent.alert "WebRTC error... Device error"] ∧
    retryCount (publishOwnFeed (fun _ => some "Device error") true) ≠ 0 := by
  constructor
  · rfl
  · decide

/-- C5 amended: a createOffer failure on the audio+video attempt
triggers exactly one retry without audio and no report of its own; a
createOffer failure on the no-audio attempt is reported once via
safeAlert and not retried; in every execution at most one retry and at
most one user report occur. -/
theorem c5_publish_retry (offerError : Bool → Option String) :
    retryCount (publishOwnFeed offerError true) ≤ 1 ∧
    (publishOwnFeed offerError true).countP isAlertEvent ≤ 1 ∧
    (offerError true = none →
      publishOwnFeed offerError true =
        [PubEvent.createOffer true, PubEvent.configure true]) ∧
    (∀ e, offerError true = some e → offerError false = none →
      publishOwnFeed offerError true =
        [PubEvent.createOffer true, PubEvent.createOffer false,
         PubEvent.configure false]) ∧
    (∀ e e', offerError true = some e → offerError false = some e' →
      publishOwnFeed offerError true =
        [PubEvent.createOffer true, PubEvent.createOffer false,
         PubEvent.alert ("WebRTC error... " ++ e')]) ∧
    (∀ e', offerError false = some e' →
      publishOwnFeed offerError false =
        [PubEvent.createOffer false,
         PubEvent.alert ("WebRTC error... " ++ e')]) := by
  refine ⟨?_, ?_, ?_, ?_, ?_, ?_⟩
  · rcases h : offerError true with _ | e
    · simp [publishOwnFeed, publishNoAudio, h, retryCount, isCreateOffer]
    · rcases h' : offerError false with _ | e'
      · simp [publishOwnFeed, publishNoAudio, h, h', retryCount, isCreateOffer]
      · simp [publishOwnFeed, publishNoAudio, h, h', retryCount, isCreateOffer]
  · rcases h : offerError true with _ | e
    · simp [publishOwnFeed, publishNoAudio, h, isAlertEvent]
    · rcases h' : offerError false with _ | e'
      · simp [publishOwnFeed, publishNoAudio, h, h', isAlertEvent]
      · simp [publishOwnFeed, publishNoAudio, h, h', isAlertEvent]
  · intro h
    simp [publishOwnFeed, publishNoAudio, h]
  · intro e h h'
    simp [publishOwnFeed, publishNoAudio, h, h']
  · intro e e' h h'
    simp [publishOwnFeed, publishNoAudio, h, h']
  · intro e' h'
    simp [publishOwnFeed, publishNoAudio, h']

/-- Witness for C5 amended at a concrete oracle: only the audio attempt
fails, so the trace is the retry trace ending in a successful
configure. -/
theorem c5_publish_retry_witness :
    publishOwnFeed (fun b => if b then some "x" else none) true =
      [PubEvent.createOffer true, PubEvent.createOffer false,
       PubEvent.configure false] :=
  (c5_publish_retry (fun b => if b then some "x" else none)).2.2.2.1
    "x" rfl rfl

/-- C6: safeAlert displays through bootbox.alert when it is a function,
otherwise through toastr.error when available, otherwise through the
plain alert; and when the chosen library call throws, the plain alert is
the final fallback. -/
theorem c6_safe_alert (env : AlertEnv) (cb : Option PageAction) :
    (safeAlert env cb).attempted = chosenMethod env ∧
    (env.hasBootbox = true → chosenMethod env = AlertMethod.bootbox) ∧
    (env.hasBootbox = false → env.hasToastr = true →
      chosenMethod env = AlertMethod.toastr) ∧
    (env.hasBootbox = false → env.hasToastr = false →
      chosenMethod env = AlertMethod.plain) ∧
    (chosenThrows env = false →
      (safeAlert env cb).displayed = [chosenMethod env]) ∧
    (chosenThrows env = true →
      (safeAlert env cb).displayed = [AlertMethod.plain]) := by
  obtain ⟨hb, ht, bt, tt⟩ := env
  cases hb <;> cases ht <;> cases bt <;> cases tt <;>
    simp [safeAlert, chosenMethod, chosenThrows]

/-- Witness for C6 at a concrete environment: bootbox present but
throwing, so the plain alert is the final fallback. -/
theorem c6_safe_alert_witness :
    (safeAlert ⟨true, false, true, false⟩ none).displayed =
      [AlertMethod.plain] ∧
    chosenMethod ⟨true, false, true, false⟩ = AlertMethod.bootbox :=
  ⟨(c6_safe_alert ⟨true, false, true, false⟩ none).2.2.2.2.2 rfl,
   (c6_safe_alert ⟨true, false, true, false⟩ none).2.1 rfl⟩

/-- C7: the `destroyed` videoroom event surfaces exactly one display
invocation (hence at most one) and hands the reload callback off in
every environment; the Janus session's destroyed callback surfaces
nothing and reloads immediately. -/
theorem c7_destroyed_reload (env : AlertEnv) :
    (onRoomDestroyedEvent env).displayed.length ≤ 1 ∧
    (onRoomDestroyedEvent env).callbackDelivered = some PageAction.reload ∧
    onSessionDestroyed = [PageAction.reload] := by
  obtain ⟨hb, ht, bt, tt⟩ := env
  cases hb <;> cases ht <;> cases bt <;> cases tt <;>
    simp [onRoomDestroyedEvent, safeAlert, onSessionDestroyed]

/-- C9: the join request is sent iff the username is non-empty and all
its characters are in `[a-zA-Z0-9]`; a username containing a character
outside that class leads to no request, the `Input is not alphanumeric`
warning, and the field reset to the empty string. -/
theorem c9_handle_register (room : Option Int) (u : String) :
    ((handleRegister room u).sentJoin.isSome = true ↔
      (u ≠ "" ∧ u.toList.all isAsciiAlphanum = true)) ∧
    (u.toList.any (fun c => !(isAsciiAlphanum c)) = true →
      (handleRegister room u).sentJoin = none ∧
      (handleRegister room u).warning = some "Input is not alphanumeric" ∧
      (handleRegister room u).usernameAfter = "") := by
  have key : (u.toList.any fun c => !(isAsciiAlphanum c)) =
      !(u.toList.all isAsciiAlphanum) := by
    induction u.toList with
    | nil => rfl
    | cons c cs ih => simp [List.any_cons, List.all_cons, ih, Bool.not_and]
  by_cases hu : u = ""
  · subst hu
    refine ⟨⟨fun hs => ?_, fun h => absurd rfl h.1⟩, fun ha => ?_⟩
    · rw [handleRegister, if_pos rfl] at hs
      simp at hs
    · simp at ha
  · cases hall : u.toList.all isAsciiAlphanum with
    | true =>
      have ha : (u.toList.any fun c => !(isAsciiAlphanum c)) = false := by
        rw [key, hall]
        rfl
      refine ⟨⟨fun _ => ⟨hu, rfl⟩, fun _ => ?_⟩, fun hcontra => ?_⟩
      · rw [handleRegister, if_neg hu,
            if_neg (ha ▸ Bool.false_ne_true)]
        rfl
      · rw [ha] at hcontra
        exact (Bool.false_ne_true hcontra).elim
    | false =>
      have ha : (u.toList.any fun c => !(isAsciiAlphanum c)) = true := by
        rw [key, hall]
        rfl
      refine ⟨⟨fun hs => ?_, fun h => (Bool.false_ne_true h.2).elim⟩,
              fun _ => ?_⟩
      · rw [handleRegister, if_neg hu, if_pos ha] at hs
        simp at hs
      · rw [handleRegister, if_neg hu, if_pos ha]
        exact ⟨rfl, rfl, rfl⟩

/-- Witness for C9 at concrete usernames: `"a b"` contains a space, so
no request is sent, the warning fires and the field resets; `"pippo"` is
alphanumeric and non-empty, so the request is sent. -/
theorem c9_handle_register_witness :
    (handleRegister (some 1234) "a b").sentJoin = none ∧
    (handleRegister (some 1234) "a b").warning =
      some "Input is not alphanumeric" ∧
    (handleRegister (some 1234) "a b").usernameAfter = "" ∧
    (handleRegister (some 1234) "pippo").sentJoin.isSome = true :=
  ⟨((c9_handle_register (some 1234) "a b").2 (by decide)).1,
   ((c9_handle_register (some 1234) "a b").2 (by decide)).2.1,
   ((c9_handle_register (some 1234) "a b").2 (by decide)).2.2,
   ((c9_handle_register (some 1234) "pippo").1).mpr ⟨by decide, by decide⟩⟩

/-- C1 counterexample: with subscriber-mode off (its query default) a
successful `joined` event leaves the join form visible and does not show
the video grid — the handler instead calls publishOwnFeed. -/
theorem c1_counterexample :
    ¬ (((onJoined false ⟨false, true, false, none, none⟩
          ⟨7, 9, 1234, none⟩).1.showJoinForm = false) ∧
       ((onJoined false ⟨false, true, false, none, none⟩
          ⟨7, 9, 1234, none⟩).1.showVideos = true)) := by
  decide

/-- C1 amended: after a successful `joined` event the handler records
the id and private id and sets `joined`; the join form is hidden and the
video grid shown exactly when subscriber-mode is enabled; otherwise both
flags are left unchanged and the handler initiates publishing of the
local feed instead. -/
theorem c1_joined_transition (s : UiState) (m : JoinedMsg) :
    (onJoined true s m).1.showJoinForm = false ∧
    (onJoined true s m).1.showVideos = true ∧
    (onJoined false s m).1.showJoinForm = s.showJoinForm ∧
    (onJoined false s m).1.showVideos = s.showVideos ∧
    (onJoined false s m).2.head? =
      some (JoinEffect.publishOwnFeedCall true) ∧
    (∀ mode : Bool, (onJoined mode s m).1.joined = true ∧
      (onJoined mode s m).1.myId = some m.mid ∧
      (onJoined mode s m).1.myPvtId = some m.privateId) := by
  refine ⟨rfl, rfl, rfl, rfl, ?_, ?_⟩
  · simp [onJoined]
  · intro mode
    cases mode <;> simp [onJoined]

/-! ### Helper lemmas for the feeds-array invariant (C8) -/

/-- Setting a slot at a positive index leaves slot 0 unchanged. -/
theorem getD_zero_set_succ (fs : Feeds) (n : Nat) (x : Option RemoteFeed) :
    (fs.set (n + 1) x).getD 0 none = fs.getD 0 none := by
  cases fs <;> rfl

/-- Setting a slot within range places the value at that slot. -/
theorem getD_set_self (fs : Feeds) (i : Nat) (x : Option RemoteFeed)
    (h : i < fs.length) : (fs.set i x).getD i none = x := by
  induction fs generalizing i with
  | nil => simp at h
  | cons a t ih =>
    cases i with
    | zero => rfl
    | succ n => exact ih n (by simpa using h)

/-- The assigned slot of the unrolled first-free-slot search lies in
1..5. -/
theorem firstFreeSlot_mem (fs : Feeds) (i : Nat)
    (h : firstFreeSlot fs = some i) : 1 ≤ i ∧ i ≤ 5 := by
  unfold firstFreeSlot at h
  split_ifs at h <;> simp_all <;> omega

/-- The first-free-slot search returns a free slot, and every earlier
slot in 1..5 is occupied. -/
theorem firstFreeSlot_smallest (fs : Feeds) (i : Nat)
    (h : firstFreeSlot fs = some i) :
    1 ≤ i ∧ i ≤ 5 ∧ slotFree fs i = true ∧
      ∀ j, 1 ≤ j → j < i → slotFree fs j = false := by
  unfold firstFreeSlot at h
  split_ifs at h with h1 h2 h3 h4 h5
  · injection h with hi
    subst hi
    exact ⟨by omega, by omega, h1, fun j hj1 hj2 => by omega⟩
  · injection h with hi
    subst hi
    refine ⟨by omega, by omega, h2, ?_⟩
    intro j hj1 hj2
    interval_cases j
    · simpa using h1
  · injection h with hi
    subst hi
    refine ⟨by omega, by omega, h3, ?_⟩
    intro j hj1 hj2
    interval_cases j
    · simpa using h1
    · simpa using h2
  · injection h with hi
    subst hi
    refine ⟨by omega, by omega, h4, ?_⟩
    intro j hj1 hj2
    interval_cases j
    · simpa using h1
    · simpa using h2
    · simpa using h3
  · injection h with hi
    subst hi
    refine ⟨by omega, by omega, h5, ?_⟩
    intro j hj1 hj2
    interval_cases j
    · simpa using h1
    · simpa using h2
    · simpa using h3
    · simpa using h4

/-- Each feeds-array operation preserves the length. -/
theorem length_applyOp (fs : Feeds) (op : FeedsOp) :
    (applyOp fs op).length = fs.length := by
  cases op with
  | attach f =>
    rcases hf : firstFreeSlot fs with _ | i <;>
      simp [applyOp, attachFeed, hf, List.length_set]
  | remove id =>
    simp only [applyOp, removeRemoteFeed]
    split_ifs <;> simp [List.length_set]
  | update idx g =>
    rcases idx with _ | i
    · rfl
    · rcases hg : fs.getD i none with _ | f
      · simp only [applyOp, updateFeedAt, hg]
      · simp only [applyOp, updateFeedAt, hg]
        simp [List.length_set]

/-- Each feeds-array operation preserves the C8 invariant. -/
theorem feedsInv_applyOp (fs : Feeds) (op : FeedsOp) (h : FeedsInv fs) :
    FeedsInv (applyOp fs op) := by
  obtain ⟨hlen, h0⟩ := h
  refine ⟨(length_applyOp fs op).trans hlen, ?_⟩
  cases op with
  | attach f =>
    rcases hf : firstFreeSlot fs with _ | i
    · simp only [applyOp, attachFeed, hf]
      exact h0
    · obtain ⟨h1, h5⟩ := firstFreeSlot_mem fs i hf
      obtain ⟨n, rfl⟩ : ∃ n, i = n + 1 := ⟨i - 1, by omega⟩
      simp only [applyOp, attachFeed, hf]
      rw [getD_zero_set_succ]
      exact h0
  | remove id =>
    simp only [applyOp, removeRemoteFeed]
    split_ifs <;> first
      | exact h0
      | (rw [getD_zero_set_succ]; exact h0)
  | update idx g =>
    rcases idx with _ | i
    · exact h0
    · rcases hg : fs.getD i none with _ | f
      · simp only [applyOp, updateFeedAt, hg]
        exact h0
      · rcases i with _ | n
        · rw [h0] at hg
          cases hg
        · simp only [applyOp, updateFeedAt, hg]
          rw [getD_zero_set_succ]
          exact h0

/-- The C8 invariant holds initially. -/
theorem feedsInv_initial : FeedsInv initialFeeds :=
  ⟨rfl, rfl⟩

/-- The C8 invariant is preserved along any operation sequence. -/
theorem feedsInv_foldl (ops : List FeedsOp) (fs : Feeds)
    (h : FeedsInv fs) : FeedsInv (ops.foldl applyOp fs) := by
  induction ops generalizing fs with
  | nil => exact h
  | cons op ops ih => exact ih _ (feedsInv_applyOp fs op h)

/-- Under the invariant at most five slots hold a remote feed. -/
theorem countFeeds_le_five (fs : Feeds) (h : FeedsInv fs) :
    countFeeds fs ≤ 5 := by
  obtain ⟨hlen, h0⟩ := h
  rcases fs with _ | ⟨a0, t⟩
  · simp at hlen
  · have ha0 : a0 = none := h0
    subst ha0
    have ht : t.length = 5 := by simpa using hlen
    have heq : countFeeds (none :: t) = countFeeds t := by
      simp [countFeeds, List.countP_cons]
    rw [heq]
    calc countFeeds t ≤ t.length := List.countP_le_length _
      _ = 5 := ht

/-- C8: the feeds array, initialized to six null slots, keeps length 6
and a null slot 0 under every operation sequence, so at most five remote
feeds are stored at any time; the attach handler assigns the first free
index in 1..5 to the new feed (every smaller index in 1..5 being
occupied), stores the feed there with that rfindex, and when no slot in
1..5 is free it leaves the array unchanged and drops the feed. -/
theorem c8_feeds_invariant :
    (∀ ops : List FeedsOp, FeedsInv (runOps ops)) ∧
    (∀ ops : List FeedsOp, countFeeds (runOps ops) ≤ 5) ∧
    (∀ (fs : Feeds) (f : RemoteFeed), (attachFeed fs f).2 = firstFreeSlot fs) ∧
    (∀ (fs : Feeds) (i : Nat), firstFreeSlot fs = some i →
      1 ≤ i ∧ i ≤ 5 ∧ slotFree fs i = true ∧
        ∀ j, 1 ≤ j → j < i → slotFree fs j = false) ∧
    (∀ (fs : Feeds) (f : RemoteFeed) (i : Nat), FeedsInv fs →
      firstFreeSlot fs = some i →
      (attachFeed fs f).1.getD i none = some { f with rfindex := some i }) ∧
    (∀ (fs : Feeds) (f : RemoteFeed),
      (∀ j, 1 ≤ j → j ≤ 5 → slotFree fs j = false) →
      attachFeed fs f = (fs, none)) := by
  refine ⟨?_, ?_, ?_, ?_, ?_, ?_⟩
  · intro ops
    exact feedsInv_foldl ops initialFeeds feedsInv_initial
  · intro ops
    exact countFeeds_le_five _ (feedsInv_foldl ops initialFeeds feedsInv_initial)
  · intro fs f
    rcases hf : firstFreeSlot fs with _ | i <;> simp [attachFeed, hf]
  · intro fs i hf
    exact firstFreeSlot_smallest fs i hf
  · intro fs f i hinv hf
    obtain ⟨hlen, _⟩ := hinv
    obtain ⟨h1, h5⟩ := firstFreeSlot_mem fs i hf
    simp only [attachFeed, hf]
    exact getD_set_self fs i _ (by omega)
  · intro fs f hall
    have h1 := hall 1 (by omega) (by omega)
    have h2 := hall 2 (by omega) (by omega)
    have h3 := hall 3 (by omega) (by omega)
    have h4 := hall 4 (by omega) (by omega)
    have h5 := hall 5 (by omega) (by omega)
    have hnone : firstFreeSlot fs = none := by
      simp [firstFreeSlot, h1, h2, h3, h4, h5]
    simp [attachFeed, hnone]

/-- Witness for C8 at concrete inputs: attaching one feed to the fresh
array keeps the invariant; the feed lands in slot 1 with rfindex 1, and
the search characterization holds at slot 1. -/
theorem c8_feeds_invariant_witness :
    FeedsInv (runOps [FeedsOp.attach ⟨10, none, 0, false, false⟩]) ∧
    (attachFeed initialFeeds ⟨10, none, 0, false, false⟩).1.getD 1 none =
      some ⟨10, some 1, 0, false, false⟩ ∧
    (1 ≤ 1 ∧ 1 ≤ 5 ∧ slotFree initialFeeds 1 = true ∧
      ∀ j, 1 ≤ j → j < 1 → slotFree initialFeeds j = false) :=
  ⟨c8_feeds_invariant.1 [FeedsOp.attach ⟨10, none, 0, false, false⟩],
   c8_feeds_invariant.2.2.2.2.1 initialFeeds ⟨10, none, 0, false, false⟩ 1
     ⟨rfl, rfl⟩ rfl,
   c8_feeds_invariant.2.2.2.1 initialFeeds 1 rfl⟩

end Dnd2
